import Mathlib

/-!
Shallow embedding of the guest-message processing pipeline:
`src/openai.js`, `src/vector-database.js`, `src/ai-assistant.js`,
`src/twilio.js`, `src/webhook.js`, `src/conversation.js`.

Conventions of the embedding:
* Prisma tables become lists inside a `Store`; `create` appends a row and
  allocates `nextId`; `findFirst`/`findUnique` become `List.find?`.
* `createdAt` ordering coincides with insertion order (the clock is
  monotone within one run), so `orderBy createdAt desc` is modelled as the
  reverse of insertion order; `Conversation.updatedAt` is a `Nat` tick
  taken from `Env.now`.
* External providers (OpenAI embedding, Supabase `match_embeddings` RPC,
  chat completion, the Twilio transport) are parameters of an `Env`;
  a thrown JS exception is `Except.error` (or `Outcome.thrown` once it
  propagates out of `processIncomingMessage`).
* Floating-point similarity scores appear only as opaque values handed to
  the external RPC, modelled as `ℚ`.
-/

namespace Ho

/-- One row of the `User` table (the account): `messageCount` / `messageLimit`
as in the Prisma model used by `src/twilio.js`. -/
structure User where
  id : Nat
  messageCount : Nat
  messageLimit : Nat
deriving DecidableEq, Repr

/-- Optional property-detail fields, from `propertyDetailsSchema` in
`src/property.js` (all `z.string().optional()`; the `faqs` record is kept
as an optional association list). -/
structure PropertyDetails where
  checkInTime : Option String := none
  checkOutTime : Option String := none
  wifiPassword : Option String := none
  houseRules : Option String := none
  location : Option String := none
  nearbyAttractions : Option String := none
  emergencyContacts : Option String := none
  faqs : Option (List (String × String)) := none
  customNotes : Option String := none
deriving DecidableEq, Repr

/-- One row of the `Property` table; `propertyDetails` is the optional
included relation read by `AIAssistant.processMessage`. -/
structure Property where
  id : Nat
  userId : Nat
  phoneNumber : String
  name : String
  propertyDetails : Option PropertyDetails := none
deriving DecidableEq, Repr

/-- One row of the `Conversation` table. -/
structure Conversation where
  id : Nat
  propertyId : Nat
  guestPhoneNumber : String
  guestName : String
  updatedAt : Nat
deriving DecidableEq, Repr

/-- One row of the `Message` table; creation order (and hence `createdAt`
order) is the position in `Store.messages`. -/
structure Message where
  id : Nat
  conversationId : Nat
  content : String
  isFromGuest : Bool
deriving DecidableEq, Repr

/-- The durable relational store shared by all pipeline instances. -/
structure Store where
  users : List User
  properties : List Property
  conversations : List Conversation
  messages : List Message
  nextId : Nat
deriving DecidableEq, Repr

/-- `prisma.property.findFirst({ where: { phoneNumber } })`. -/
def findFirstProperty (st : Store) (phone : String) : Option Property :=
  st.properties.find? (fun p => p.phoneNumber == phone)

/-- `prisma.property.findUnique({ where: { id } })`. -/
def findPropertyUnique (st : Store) (pid : Nat) : Option Property :=
  st.properties.find? (fun p => p.id == pid)

/-- `prisma.user.findUnique({ where: { id } })`. -/
def findUserUnique (st : Store) (uid : Nat) : Option User :=
  st.users.find? (fun u => u.id == uid)

/-- `prisma.conversation.findFirst({ where: { propertyId, guestPhoneNumber } })`. -/
def findFirstConversation (st : Store) (pid : Nat) (guest : String) : Option Conversation :=
  st.conversations.find? (fun c => c.propertyId == pid && c.guestPhoneNumber == guest)

/-- `prisma.conversation.findUnique({ where: { id } })`. -/
def findConversationUnique (st : Store) (cid : Nat) : Option Conversation :=
  st.conversations.find? (fun c => c.id == cid)

/-- `prisma.conversation.create({ data: { propertyId, guestPhoneNumber, guestName } })`. -/
def createConversation (st : Store) (pid : Nat) (guest name : String) (now : Nat) :
    Conversation × Store :=
  let c : Conversation := ⟨st.nextId, pid, guest, name, now⟩
  (c, { st with conversations := st.conversations ++ [c], nextId := st.nextId + 1 })

/-- `prisma.message.create({ data: { conversationId, content, isFromGuest } })`. -/
def createMessage (st : Store) (cid : Nat) (content : String) (fromGuest : Bool) :
    Message × Store :=
  let m : Message := ⟨st.nextId, cid, content, fromGuest⟩
  (m, { st with messages := st.messages ++ [m], nextId := st.nextId + 1 })

/-- `prisma.user.update({ where: { id }, data: { messageCount: { increment: 1 } } })`. -/
def incrementUserCount (st : Store) (uid : Nat) : Store :=
  { st with users := st.users.map (fun u =>
      if u.id == uid then { u with messageCount := u.messageCount + 1 } else u) }

/-- `prisma.conversation.update({ where: { id }, data: { updatedAt: new Date() } })`. -/
def touchConversation (st : Store) (cid : Nat) (now : Nat) : Store :=
  { st with conversations := st.conversations.map (fun c =>
      if c.id == cid then { c with updatedAt := now } else c) }

/-- The account counter as read back from the store (0 if the row is absent). -/
def userCount (st : Store) (uid : Nat) : Nat :=
  ((findUserUnique st uid).map (fun u => u.messageCount)).getD 0

/-- `prisma.message.findMany({ where: { conversationId }, orderBy: { createdAt: desc }, take })`:
newest first, at most `take` rows. -/
def recentMessages (st : Store) (cid : Nat) (take : Nat) : List Message :=
  ((st.messages.filter (fun m => m.conversationId == cid)).reverse).take take

/-- Replace the first occurrence of `pat` in the character list (the empty
pattern matches at the front, as in JS). -/
def replaceFirstList (s pat repl : List Char) : List Char :=
  match s with
  | [] => if pat.isEmpty then repl else []
  | c :: rest =>
    if pat.isPrefixOf (c :: rest) then repl ++ (c :: rest).drop pat.length
    else c :: replaceFirstList rest pat repl

/-- JS `String.prototype.replace(pat, repl)` with a string pattern replaces
only the first occurrence. -/
def replaceFirst (s pat repl : String) : String :=
  ⟨replaceFirstList s.data pat.data repl.data⟩

/-- JS whitespace for `String.prototype.trim`. -/
def isWhitespaceChar (c : Char) : Bool :=
  c == ' ' || c == '\t' || c == '\n' || c == '\r'

/-- JS `String.prototype.trim()`. -/
def jsTrim (s : String) : String :=
  ⟨((s.data.dropWhile isWhitespaceChar).reverse.dropWhile isWhitespaceChar).reverse⟩

/-- Does `needle` occur as a contiguous substring of `hay`? -/
def containsList (needle hay : List Char) : Bool :=
  match hay with
  | [] => needle.isEmpty
  | _ :: t => needle.isPrefixOf hay || containsList needle t

/-- Substring occurrence on strings. -/
def occursIn (needle hay : String) : Bool :=
  containsList needle.data hay.data

/-- JS truthiness of an optional string field: present and non-empty. -/
def jsTruthyStr : Option String → Bool
  | none => false
  | some s => !(s == "")

/-- One `${details.f ? `- Label: ${details.f}` : ''}` template line of
`AIAssistant.createSystemPrompt`. -/
def detailLine (label : String) (v : Option String) : String :=
  match v with
  | none => ""
  | some s => if s == "" then "" else "- " ++ label ++ ": " ++ s

/-- The fixed text of `createSystemPrompt` before the retrieved snippets. -/
def promptHead (name : String) : String :=
  "You are an AI assistant for " ++ name ++
  ", an Airbnb/rental property. Your name is Hostenly.\n\nYour role is to assist guests by providing accurate information about the property and answering their questions in a friendly, helpful manner.\n\nHere is specific information about the property that you can use to answer guest questions:\n\n"

/-- The fixed guideline text of `createSystemPrompt` after the detail lines. -/
def promptTail : String :=
  "\n\nImportant guidelines:\n1. Only provide information that is contained in the property details above.\n2. If you don\x27t know the answer to a question, politely say so and offer to relay the message to the host.\n3. Be conversational and friendly, but professional.\n4. Keep responses concise and to the point.\n5. Do not make up or hallucinate any information that is not provided.\n6. If asked about something not in your knowledge base, say: \x22I don\x27t have that information available, but I can ask the host for you.\x22\n7. Never share the WiFi password unless specifically asked for it.\n\nRespond to the guest\x27s latest message based on the conversation history and the information provided."

/-- `AIAssistant.createSystemPrompt(property, relevantInfo)`:
`const details = property.propertyDetails || {}` followed by the template
literal; the four conditionally rendered lines keep their template order. -/
def createSystemPrompt (property : Property) (relevantInfo : String) : String :=
  let details := property.propertyDetails.getD {}
  promptHead property.name ++ relevantInfo ++
  "\n\nAdditional property details:\n" ++
  detailLine "Check-in time" details.checkInTime ++ "\n" ++
  detailLine "Check-out time" details.checkOutTime ++ "\n" ++
  detailLine "WiFi password" details.wifiPassword ++ "\n" ++
  detailLine "Location" details.location ++
  promptTail

/-- One row returned by the Supabase `match_embeddings` RPC
(`metadata` is the raw JSON string column). -/
structure VectorRow where
  id : Nat
  content : String
  metadata : String
  similarity : ℚ
deriving DecidableEq, Repr

/-- One formatted result of `VectorDatabase.searchSimilar`
(`JSON.parse` of the metadata column is kept as the raw string: the claims
never inspect it). -/
structure SearchResult where
  id : Nat
  content : String
  metadata : String
  similarity : ℚ
deriving DecidableEq, Repr

/-- `OpenAIEmbeddings.generateEmbedding`: on provider failure the catch
block rethrows `new Error('Failed to generate embedding')`. -/
def generateEmbedding (emb : String → Except String (List Int)) (text : String) :
    Except String (List Int) :=
  match emb text with
  | .ok v => .ok v
  | .error _ => .error "Failed to generate embedding"

/-- `VectorDatabase.searchSimilar(query, propertyId, limit, similarityThreshold)`:
embeds the query, calls the `match_embeddings` RPC, formats the rows; the
catch block logs and rethrows, so every failure propagates to the caller. -/
def searchSimilar (emb : String → Except String (List Int))
    (rpc : List Int → ℚ → Nat → Nat → Except String (List VectorRow))
    (query : String) (propertyId : Nat) (limit : Nat) (similarityThreshold : ℚ) :
    Except String (List SearchResult) :=
  match generateEmbedding emb query with
  | .error e => .error e
  | .ok queryEmbedding =>
    match rpc queryEmbedding similarityThreshold limit propertyId with
    | .error m => .error ("Error in similarity search: " ++ m)
    | .ok rows => .ok (rows.map (fun r => ⟨r.id, r.content, r.metadata, r.similarity⟩))

/-- The process environment: the external leaf providers and configuration
consumed by the pipeline. `transport` is the Twilio client
(`client.messages.create`): `true` means the send is accepted. -/
structure Env where
  emb : String → Except String (List Int)
  rpc : List Int → ℚ → Nat → Nat → Except String (List VectorRow)
  complete : String → String → Except String String
  transport : String → String → String → Bool
  twilioPhoneNumber : String
  now : Nat

/-- One message accepted by the transport (from, to, body). -/
structure Sent where
  sfrom : String
  sto : String
  body : String
deriving DecidableEq, Repr

/-- `'whatsapp:' + n` unless `n` already starts with the prefix. -/
def formatWhatsApp (n : String) : String :=
  if "whatsapp:".data.isPrefixOf n.data then n else "whatsapp:" ++ n

/-- `TwilioService.sendWhatsAppMessage(to, body)`: sends from the default
Twilio number; the catch block rethrows the client error. -/
def sendWhatsAppMessage (env : Env) (toAddr body : String) : Except String Sent :=
  let formattedTo := formatWhatsApp toAddr
  let f := "whatsapp:" ++ env.twilioPhoneNumber
  if env.transport f formattedTo body then .ok ⟨f, formattedTo, body⟩
  else .error "Twilio client error"

/-- `TwilioService.sendMessage(from, to, body)`: formats both numbers; on
client failure throws `new Error('Failed to send message via Twilio')`. -/
def sendMessage (env : Env) (f toAddr body : String) : Except String Sent :=
  let formattedFrom := formatWhatsApp f
  let formattedTo := formatWhatsApp toAddr
  if env.transport formattedFrom formattedTo body then .ok ⟨formattedFrom, formattedTo, body⟩
  else .error "Failed to send message via Twilio"

/-- The fixed fallback reply returned by `AIAssistant.processMessage` when
anything inside its try block throws. -/
def fallbackReply : String :=
  "I apologize, but I encountered an issue processing your request. Please try again later or contact the host directly."

/-- The fixed notice sent when the account has reached its message limit. -/
def limitNotice : String :=
  "I apologize, but this property has reached its message limit. Please contact the host directly."

/-- `Guest: ...` / `Host: ...` lines of the conversation history, oldest
to newest, as assembled in `AIAssistant.processMessage`. -/
def formatHistory (msgs : List Message) : String :=
  String.intercalate "\n" (msgs.map (fun msg =>
    (if msg.isFromGuest then "Guest" else "Host") ++ ": " ++ msg.content))

/-- The try-block body of `AIAssistant.processMessage`: property lookup,
last-10 history, retrieval (`k = 3`, `minScore = 0.6`), prompt assembly and
the completion call; each `Except.error` is a thrown JS error. -/
def processMessageCore (env : Env) (st : Store) (propertyId conversationId : Nat)
    (message : String) : Except String String :=
  match findPropertyUnique st propertyId with
  | none => .error "Property not found"
  | some property =>
    let messageHistory := recentMessages st conversationId 10
    let chronologicalMessages := messageHistory.reverse
    match searchSimilar env.emb env.rpc message propertyId 3 (3 / 5 : ℚ) with
    | .error e => .error e
    | .ok relevantInfo =>
      let formattedHistory := formatHistory chronologicalMessages
      let formattedRelevantInfo :=
        String.intercalate "\n" (relevantInfo.map (fun info => info.content))
      let systemPrompt := createSystemPrompt property formattedRelevantInfo
      let userContent :=
        "Conversation history:\n" ++ formattedHistory ++
        "\n\nGuest\x27s latest message: " ++ message
      match env.complete systemPrompt userContent with
      | .error e => .error e
      | .ok text => .ok (jsTrim text)

/-- `AIAssistant.processMessage`: the catch block converts every failure
into the fixed fallback reply, so the caller always receives a string. -/
def processMessage (env : Env) (st : Store) (propertyId conversationId : Nat)
    (message : String) : String :=
  match processMessageCore env st propertyId conversationId message with
  | .ok r => r
  | .error _ => fallbackReply

/-- The value returned by `TwilioService.processIncomingMessage`. -/
structure ProcResult where
  success : Bool
  error : Option String
  propertyId : Option Nat
  conversationId : Option Nat
  messageId : Option Nat
deriving DecidableEq, Repr

/-- Normal return versus a JS exception propagating out of the call. -/
inductive Outcome where
  | returned (r : ProcResult)
  | thrown (e : String)
deriving DecidableEq, Repr

/-- Result, final store and accepted sends of one pipeline run (store
mutations made before a throw persist). -/
structure ProcOut where
  outcome : Outcome
  store : Store
  sent : List Sent
deriving DecidableEq, Repr

/-- The inbound Twilio webhook event body. -/
structure IncomingMessage where
  From : String
  To : String
  Body : String
  ProfileName : Option String
deriving DecidableEq, Repr

/-- `ProfileName || 'Guest'`. -/
def profileNameOrGuest : Option String → String
  | none => "Guest"
  | some s => if s == "" then "Guest" else s

/-- `TwilioService.processIncomingMessage(messageData)`, straight-line
translation of `src/twilio.js` lines 75–177: resolve property, quota
pre-check, lookup-or-create conversation, persist guest message, first
increment, AI response, persist reply, second increment, dispatch.
A missing user row makes `user.messageCount` throw a TypeError. -/
def processIncomingMessage (env : Env) (st : Store) (m : IncomingMessage) : ProcOut :=
  let guestPhoneNumber := replaceFirst m.From "whatsapp:" ""
  let propertyPhoneNumber := replaceFirst m.To "whatsapp:" ""
  match findFirstProperty st propertyPhoneNumber with
  | none => ⟨.returned ⟨false, some "Property not found", none, none, none⟩, st, []⟩
  | some property =>
    match findUserUnique st property.userId with
    | none => ⟨.thrown "TypeError: Cannot read properties of null", st, []⟩
    | some user =>
      if user.messageLimit ≤ user.messageCount then
        match sendWhatsAppMessage env guestPhoneNumber limitNotice with
        | .error e => ⟨.thrown e, st, []⟩
        | .ok s => ⟨.returned ⟨false, some "Message limit reached", none, none, none⟩, st, [s]⟩
      else
        let convSt :=
          match findFirstConversation st property.id guestPhoneNumber with
          | some c => (c, st)
          | none => createConversation st property.id guestPhoneNumber
              (profileNameOrGuest m.ProfileName) env.now
        let conversation := convSt.1
        let msgSt := createMessage convSt.2 conversation.id m.Body true
        let message := msgSt.1
        let st3 := incrementUserCount msgSt.2 property.userId
        let aiResponse := processMessage env st3 property.id conversation.id m.Body
        let st4 := (createMessage st3 conversation.id aiResponse false).2
        let st5 := incrementUserCount st4 property.userId
        match sendWhatsAppMessage env guestPhoneNumber aiResponse with
        | .error e => ⟨.thrown e, st5, []⟩
        | .ok s =>
          ⟨.returned ⟨true, none, some property.id, some conversation.id, some message.id⟩,
           st5, [s]⟩

/-- `POST /twilio` in `src/webhook.js`: runs the pipeline and answers the
channel provider with the empty TwiML acknowledgment in the try branch and
in the catch branch alike. -/
def webhookTwilio (env : Env) (st : Store) (m : IncomingMessage) :
    String × Store × List Sent :=
  let out := processIncomingMessage env st m
  ("<Response></Response>", out.store, out.sent)

deriving instance DecidableEq for Except

/-- Result, final store and accepted sends of `sendManualMessage`
(`Except.error` is the thrown/rethrown JS error). -/
structure ManualOut where
  result : Except String Message
  store : Store
  sent : List Sent
deriving DecidableEq, Repr

/-- `TwilioService.sendManualMessage(conversationId, content)`: look up the
conversation with its property, persist the host message, increment the
owning account counter once, dispatch via WhatsApp. -/
def sendManualMessage (env : Env) (st : Store) (conversationId : Nat) (content : String) :
    ManualOut :=
  match findConversationUnique st conversationId with
  | none => ⟨.error "Conversation not found", st, []⟩
  | some conversation =>
    match findPropertyUnique st conversation.propertyId with
    | none => ⟨.error "TypeError: Cannot read properties of null", st, []⟩
    | some property =>
      let msgSt := createMessage st conversationId content false
      let st2 := incrementUserCount msgSt.2 property.userId
      match sendWhatsAppMessage env conversation.guestPhoneNumber content with
      | .error e => ⟨.error e, st2, []⟩
      | .ok s => ⟨.ok msgSt.1, st2, [s]⟩

/-- HTTP outcome of the conversation-route handler. -/
structure RouteOut where
  status : Nat
  store : Store
  sent : List Sent
deriving DecidableEq, Repr

/-- `POST /:id/messages` in `src/conversation.js` (after `authenticate` has
set `userId`): validate content, load the conversation with its property,
check ownership, persist the host message, touch `updatedAt`, then try the
Twilio send with its failure swallowed (`// Continue even if Twilio fails`).
Note: this handler performs no quota increment. -/
def postConversationMessage (env : Env) (st : Store) (userId cid : Nat)
    (content : String) : RouteOut :=
  if jsTrim content == "" then ⟨400, st, []⟩
  else
    match findConversationUnique st cid with
    | none => ⟨404, st, []⟩
    | some conversation =>
      match findPropertyUnique st conversation.propertyId with
      | none => ⟨500, st, []⟩
      | some property =>
        if property.userId == userId then
          let msgSt := createMessage st cid content false
          let st2 := touchConversation msgSt.2 cid env.now
          match sendMessage env property.phoneNumber conversation.guestPhoneNumber content with
          | .error _ => ⟨201, st2, []⟩
          | .ok s => ⟨201, st2, [s]⟩
        else ⟨403, st, []⟩

/-!
Interleaving model of the lookup-or-create step (`src/twilio.js` lines
108–125) for two concurrent pipeline instances over the shared store.
Each instance suspends at every `await`, so another instance may run
between its `findFirst` and its `create`.
-/

/-- The per-instance state of one lookup-or-create execution: `pc = 0`
before the `findFirst` await, `pc = 1` between the two awaits, `pc = 2`
done; `found` holds the lookup result. -/
structure LocTask where
  pid : Nat
  guest : String
  name : String
  pc : Nat
  found : Option Conversation
deriving DecidableEq, Repr

/-- One atomic store interaction of the lookup-or-create step. -/
def locStep (env : Env) (st : Store) (t : LocTask) : Store × LocTask :=
  if t.pc == 0 then
    (st, { t with pc := 1, found := findFirstConversation st t.pid t.guest })
  else if t.pc == 1 then
    match t.found with
    | some _ => (st, { t with pc := 2 })
    | none =>
      let cSt := createConversation st t.pid t.guest t.name env.now
      (cSt.2, { t with pc := 2, found := some cSt.1 })
  else (st, t)

/-- Run two lookup-or-create instances under a schedule: `true` steps the
first task, `false` the second. -/
def runSchedule (env : Env) : Store → LocTask → LocTask → List Bool → Store
  | st, _, _, [] => st
  | st, a, b, true :: rest =>
    let s := locStep env st a
    runSchedule env s.1 s.2 b rest
  | st, a, b, false :: rest =>
    let s := locStep env st b
    runSchedule env s.1 a s.2 rest

/-- Number of Conversation rows for one (property, guest-address) pair. -/
def countConversations (st : Store) (pid : Nat) (guest : String) : Nat :=
  (st.conversations.filter (fun c => c.propertyId == pid && c.guestPhoneNumber == guest)).length

/-!  Helper lemmas about the store operations. -/

theorem findUser_incrementUserCount (st : Store) (uid : Nat) :
    findUserUnique (incrementUserCount st uid) uid =
      (findUserUnique st uid).map (fun u => { u with messageCount := u.messageCount + 1 }) := by
  unfold findUserUnique incrementUserCount
  rw [List.find?_map]
  have hpf : ((fun u : User => u.id == uid) ∘ (fun u : User =>
      if u.id == uid then { u with messageCount := u.messageCount + 1 } else u)) =
      (fun u : User => u.id == uid) := by
    funext u
    simp only [Function.comp_apply]
    by_cases h : u.id = uid
    · simp [h]
    · have hb : (u.id == uid) = false := beq_eq_false_iff_ne.mpr h
      simp [hb]
  rw [hpf]
  cases hf : st.users.find? (fun u => u.id == uid) with
  | none => rfl
  | some u0 =>
    have h0 : u0.id = uid := by simpa using List.find?_some hf
    simp [h0]

theorem userCount_inc_of_found (st : Store) (uid : Nat) (u : User)
    (hu : findUserUnique st uid = some u) :
    userCount (incrementUserCount st uid) uid = u.messageCount + 1 := by
  unfold userCount
  rw [findUser_incrementUserCount, hu]
  rfl

theorem findUser_inc_of_found (st : Store) (uid : Nat) (u : User)
    (hu : findUserUnique st uid = some u) :
    findUserUnique (incrementUserCount st uid) uid =
      some { u with messageCount := u.messageCount + 1 } := by
  rw [findUser_incrementUserCount, hu]
  rfl

theorem findUser_createMessage (st : Store) (cid : Nat) (c : String) (b : Bool) (uid : Nat) :
    findUserUnique (createMessage st cid c b).2 uid = findUserUnique st uid := rfl

theorem findUser_createConversation (st : Store) (pid : Nat) (g n : String) (now uid : Nat) :
    findUserUnique (createConversation st pid g n now).2 uid = findUserUnique st uid := rfl

/-- Admitted-path characterization of `processIncomingMessage`: once the
property and user rows resolve, the quota pre-check passes and the
transport accepts, the run is the straight-line tail of the function. -/
theorem processIncomingMessage_admitted
    (env : Env) (st : Store) (m : IncomingMessage) (p : Property) (u : User)
    (hp : findFirstProperty st (replaceFirst m.To "whatsapp:" "") = some p)
    (hu : findUserUnique st p.userId = some u)
    (hadm : u.messageCount < u.messageLimit)
    (htr : ∀ a b c, env.transport a b c = true) :
    processIncomingMessage env st m =
      (let guest := replaceFirst m.From "whatsapp:" ""
      let convSt := match findFirstConversation st p.id guest with
        | some c => (c, st)
        | none => createConversation st p.id guest (profileNameOrGuest m.ProfileName) env.now
      let conversation := convSt.1
      let msgSt := createMessage convSt.2 conversation.id m.Body true
      let st3 := incrementUserCount msgSt.2 p.userId
      let aiResponse := processMessage env st3 p.id conversation.id m.Body
      let st4 := (createMessage st3 conversation.id aiResponse false).2
      let st5 := incrementUserCount st4 p.userId
      ⟨.returned ⟨true, none, some p.id, some conversation.id, some msgSt.1.id⟩, st5,
       [⟨"whatsapp:" ++ env.twilioPhoneNumber, formatWhatsApp guest, aiResponse⟩]⟩) := by
  unfold processIncomingMessage sendWhatsAppMessage
  simp only [hp, hu, Nat.not_le.mpr hadm, if_false, htr, if_true]

/-- Quota-rejected-path characterization: the notice is dispatched and the
store is returned untouched. -/
theorem processIncomingMessage_rejected
    (env : Env) (st : Store) (m : IncomingMessage) (p : Property) (u : User)
    (hp : findFirstProperty st (replaceFirst m.To "whatsapp:" "") = some p)
    (hu : findUserUnique st p.userId = some u)
    (hreject : u.messageLimit ≤ u.messageCount)
    (htr : ∀ a b c, env.transport a b c = true) :
    processIncomingMessage env st m =
      ⟨.returned ⟨false, some "Message limit reached", none, none, none⟩, st,
       [⟨"whatsapp:" ++ env.twilioPhoneNumber,
         formatWhatsApp (replaceFirst m.From "whatsapp:" ""), limitNotice⟩]⟩ := by
  unfold processIncomingMessage sendWhatsAppMessage
  simp only [hp, hu, hreject, if_true, htr]

/-- No-matching-property characterization: plain failure return, untouched
store, nothing sent. -/
theorem processIncomingMessage_noProperty
    (env : Env) (st : Store) (m : IncomingMessage)
    (hp : findFirstProperty st (replaceFirst m.To "whatsapp:" "") = none) :
    processIncomingMessage env st m =
      ⟨.returned ⟨false, some "Property not found", none, none, none⟩, st, []⟩ := by
  unfold processIncomingMessage
  simp only [hp]

/-- Missing-account characterization: `user.messageCount` on the null
lookup result throws, the store is untouched and nothing is sent. -/
theorem processIncomingMessage_noUser
    (env : Env) (st : Store) (m : IncomingMessage) (p : Property)
    (hp : findFirstProperty st (replaceFirst m.To "whatsapp:" "") = some p)
    (hu : findUserUnique st p.userId = none) :
    processIncomingMessage env st m =
      ⟨.thrown "TypeError: Cannot read properties of null", st, []⟩ := by
  unfold processIncomingMessage
  simp only [hp, hu]

/-!  Concrete objects used by the closed witness and counterexample theorems. -/

/-- A fully available environment: every provider succeeds. -/
def demoEnv : Env :=
  { emb := fun _ => .ok [1, 2]
    rpc := fun _ _ _ _ => .ok []
    complete := fun _ _ => .ok "Welcome!"
    transport := fun _ _ _ => true
    twilioPhoneNumber := "+15550001"
    now := 5 }

/-- Account sitting one message under its limit (Scenario A). -/
def demoUser99 : User := ⟨1, 99, 100⟩

/-- Account exactly at its limit (Scenario B). -/
def demoUser100 : User := ⟨1, 100, 100⟩

/-- The property owned by account 1, reachable at `+15550001`. -/
def demoProperty : Property := ⟨2, 1, "+15550001", "Casa Azul", none⟩

/-- Store for Scenario A: the account has 99 of 100 messages used. -/
def demoStore99 : Store := ⟨[demoUser99], [demoProperty], [], [], 10⟩

/-- Store for Scenario B: the account is at its limit. -/
def demoStore100 : Store := ⟨[demoUser100], [demoProperty], [], [], 10⟩

/-- An inbound WhatsApp event addressed to the demo property. -/
def demoMsg : IncomingMessage :=
  ⟨"whatsapp:+15559999", "whatsapp:+15550001", "Hi there", some "Alice"⟩

/-!  Claim theorems. -/

/-- **C2** — For every admitted inbound exchange that runs to completion,
the owning account's `messageCount` grows by exactly two units, with both
the guest message and the reply persisted and the reply dispatched; for
every quota-rejected inbound event the store (hence the counter) is
unchanged. -/
theorem c2_admitted_exchange_consumes_two_units
    (env : Env) (st : Store) (m : IncomingMessage) (p : Property) (u : User)
    (hp : findFirstProperty st (replaceFirst m.To "whatsapp:" "") = some p)
    (hu : findUserUnique st p.userId = some u)
    (htr : ∀ a b c, env.transport a b c = true) :
    (u.messageCount < u.messageLimit →
      ∃ reply cid i1 i2,
        (processIncomingMessage env st m).outcome =
          .returned ⟨true, none, some p.id, some cid, some i1⟩ ∧
        userCount (processIncomingMessage env st m).store p.userId = u.messageCount + 2 ∧
        (processIncomingMessage env st m).store.messages =
          st.messages ++ [⟨i1, cid, m.Body, true⟩, ⟨i2, cid, reply, false⟩] ∧
        (processIncomingMessage env st m).sent =
          [⟨"whatsapp:" ++ env.twilioPhoneNumber,
            formatWhatsApp (replaceFirst m.From "whatsapp:" ""), reply⟩]) ∧
    (u.messageLimit ≤ u.messageCount →
      (processIncomingMessage env st m).store = st) := by
  constructor
  · intro hadm
    rw [processIncomingMessage_admitted env st m p u hp hu hadm htr]
    cases hc : findFirstConversation st p.id (replaceFirst m.From "whatsapp:" "") with
    | some c =>
      simp only [hc]
      refine ⟨_, c.id, st.nextId, st.nextId + 1, rfl, ?_, ?_, rfl⟩
      · have h3 : findUserUnique (incrementUserCount
            (createMessage st c.id m.Body true).2 p.userId) p.userId =
            some { u with messageCount := u.messageCount + 1 } :=
          findUser_inc_of_found _ _ u hu
        exact userCount_inc_of_found _ _ _ h3
      · simp [incrementUserCount, createMessage, createConversation, List.append_assoc]
    | none =>
      simp only [hc]
      refine ⟨_, st.nextId, st.nextId + 1, st.nextId + 2, rfl, ?_, ?_, rfl⟩
      · have h3 : findUserUnique (incrementUserCount
            (createMessage (createConversation st p.id (replaceFirst m.From "whatsapp:" "")
              (profileNameOrGuest m.ProfileName) env.now).2 st.nextId m.Body true).2
            p.userId) p.userId =
            some { u with messageCount := u.messageCount + 1 } :=
          findUser_inc_of_found _ _ u hu
        exact userCount_inc_of_found _ _ _ h3
      · simp [incrementUserCount, createMessage, createConversation, List.append_assoc]
  · intro hreject
    rw [processIncomingMessage_rejected env st m p u hp hu hreject htr]

/-- **C2 witness** — Scenario A at `messageCount = 99`, `messageLimit = 100`:
the hypotheses hold for the concrete store and the exchange ends at count
101 with both messages persisted and the reply dispatched. -/
theorem c2_admitted_exchange_consumes_two_units_witness :
    demoUser99.messageCount < demoUser99.messageLimit ∧
    (∃ reply cid i1 i2,
        (processIncomingMessage demoEnv demoStore99 demoMsg).outcome =
          .returned ⟨true, none, some demoProperty.id, some cid, some i1⟩ ∧
        userCount (processIncomingMessage demoEnv demoStore99 demoMsg).store
            demoProperty.userId = demoUser99.messageCount + 2 ∧
        (processIncomingMessage demoEnv demoStore99 demoMsg).store.messages =
          demoStore99.messages ++ [⟨i1, cid, demoMsg.Body, true⟩, ⟨i2, cid, reply, false⟩] ∧
        (processIncomingMessage demoEnv demoStore99 demoMsg).sent =
          [⟨"whatsapp:" ++ demoEnv.twilioPhoneNumber,
            formatWhatsApp (replaceFirst demoMsg.From "whatsapp:" ""), reply⟩]) :=
  ⟨by decide,
   (c2_admitted_exchange_consumes_two_units demoEnv demoStore99 demoMsg demoProperty
      demoUser99 (by decide) (by decide) (fun _ _ _ => rfl)).1 (by decide)⟩

/-- **C4** — For every inbound event whose resolved account has
`messageCount >= messageLimit`, the fixed limit notice is dispatched to the
guest and processing terminates with the store untouched: no Conversation,
no Message, and an unchanged `messageCount`. -/
theorem c4_quota_exceeded_notice_and_unchanged_store
    (env : Env) (st : Store) (m : IncomingMessage) (p : Property) (u : User)
    (hp : findFirstProperty st (replaceFirst m.To "whatsapp:" "") = some p)
    (hu : findUserUnique st p.userId = some u)
    (hreject : u.messageLimit ≤ u.messageCount)
    (htr : ∀ a b c, env.transport a b c = true) :
    (processIncomingMessage env st m).outcome =
      .returned ⟨false, some "Message limit reached", none, none, none⟩ ∧
    (processIncomingMessage env st m).sent =
      [⟨"whatsapp:" ++ env.twilioPhoneNumber,
        formatWhatsApp (replaceFirst m.From "whatsapp:" ""), limitNotice⟩] ∧
    (processIncomingMessage env st m).store = st ∧
    userCount (processIncomingMessage env st m).store p.userId = u.messageCount := by
  rw [processIncomingMessage_rejected env st m p u hp hu hreject htr]
  refine ⟨rfl, rfl, rfl, ?_⟩
  unfold userCount
  rw [hu]
  rfl

/-- **C4 witness** — Scenario B at `messageCount = 100`, `messageLimit = 100`:
the notice is dispatched and the count remains 100. -/
theorem c4_quota_exceeded_notice_and_unchanged_store_witness :
    (processIncomingMessage demoEnv demoStore100 demoMsg).outcome =
      .returned ⟨false, some "Message limit reached", none, none, none⟩ ∧
    (processIncomingMessage demoEnv demoStore100 demoMsg).sent =
      [⟨"whatsapp:" ++ demoEnv.twilioPhoneNumber,
        formatWhatsApp (replaceFirst demoMsg.From "whatsapp:" ""), limitNotice⟩] ∧
    (processIncomingMessage demoEnv demoStore100 demoMsg).store = demoStore100 ∧
    userCount (processIncomingMessage demoEnv demoStore100 demoMsg).store
      demoProperty.userId = demoUser100.messageCount :=
  c4_quota_exceeded_notice_and_unchanged_store demoEnv demoStore100 demoMsg demoProperty
    demoUser100 (by decide) (by decide) (by decide) (fun _ _ _ => rfl)

/-- **C9** — For every inbound event whose recipient address matches no
Property, the pipeline returns the failure result with no store write and
no outbound send, and the webhook still answers with the empty TwiML
acknowledgment. -/
theorem c9_property_not_found_dropped_with_ack
    (env : Env) (st : Store) (m : IncomingMessage)
    (hp : findFirstProperty st (replaceFirst m.To "whatsapp:" "") = none) :
    processIncomingMessage env st m =
      ⟨.returned ⟨false, some "Property not found", none, none, none⟩, st, []⟩ ∧
    webhookTwilio env st m = ("<Response></Response>", st, []) := by
  have h := processIncomingMessage_noProperty env st m hp
  refine ⟨h, ?_⟩
  unfold webhookTwilio
  rw [h]

/-- An inbound event whose recipient number belongs to no property. -/
def demoMsgNoProp : IncomingMessage :=
  ⟨"whatsapp:+15559999", "whatsapp:+19990000", "Hi", none⟩

/-- **C9 witness** — Scenario D on a concrete store: the unroutable event is
dropped and the webhook acknowledgment is still produced. -/
theorem c9_property_not_found_dropped_with_ack_witness :
    processIncomingMessage demoEnv demoStore99 demoMsgNoProp =
      ⟨.returned ⟨false, some "Property not found", none, none, none⟩, demoStore99, []⟩ ∧
    webhookTwilio demoEnv demoStore99 demoMsgNoProp =
      ("<Response></Response>", demoStore99, []) :=
  c9_property_not_found_dropped_with_ack demoEnv demoStore99 demoMsgNoProp (by decide)

/-- **C10** — When an admitted inbound event creates a new Conversation,
its guest name is the event's `ProfileName` when that is present and
non-empty, and the fixed default `"Guest"` otherwise. -/
theorem c10_new_conversation_guest_name
    (env : Env) (st : Store) (m : IncomingMessage) (p : Property) (u : User)
    (hp : findFirstProperty st (replaceFirst m.To "whatsapp:" "") = some p)
    (hu : findUserUnique st p.userId = some u)
    (hadm : u.messageCount < u.messageLimit)
    (htr : ∀ a b c, env.transport a b c = true)
    (hnone : findFirstConversation st p.id (replaceFirst m.From "whatsapp:" "") = none) :
    (processIncomingMessage env st m).store.conversations =
      st.conversations ++ [⟨st.nextId, p.id, replaceFirst m.From "whatsapp:" "",
        profileNameOrGuest m.ProfileName, env.now⟩] ∧
    (∀ s, m.ProfileName = some s → (s == "") = false → profileNameOrGuest m.ProfileName = s) ∧
    ((m.ProfileName = none ∨ m.ProfileName = some "") →
      profileNameOrGuest m.ProfileName = "Guest") := by
  refine ⟨?_, ?_, ?_⟩
  · rw [processIncomingMessage_admitted env st m p u hp hu hadm htr]
    simp only [hnone]
    simp [incrementUserCount, createMessage, createConversation]
  · intro s hs hne
    simp [profileNameOrGuest, hs, hne]
  · rintro (h | h) <;> simp [profileNameOrGuest, h]

/-- **C10 witness** — the concrete admitted event with `ProfileName = "Alice"`
creates the Conversation row with guest name `"Alice"`. -/
theorem c10_new_conversation_guest_name_witness :
    (processIncomingMessage demoEnv demoStore99 demoMsg).store.conversations =
      demoStore99.conversations ++ [⟨demoStore99.nextId, demoProperty.id,
        replaceFirst demoMsg.From "whatsapp:" "",
        profileNameOrGuest demoMsg.ProfileName, demoEnv.now⟩] ∧
    (∀ s, demoMsg.ProfileName = some s → (s == "") = false →
      profileNameOrGuest demoMsg.ProfileName = s) ∧
    ((demoMsg.ProfileName = none ∨ demoMsg.ProfileName = some "") →
      profileNameOrGuest demoMsg.ProfileName = "Guest") :=
  c10_new_conversation_guest_name demoEnv demoStore99 demoMsg demoProperty demoUser99
    (by decide) (by decide) (by decide) (fun _ _ _ => rfl) (by decide)

/-- A store whose property points at an account id with no User row. -/
def demoStoreNoUser : Store := ⟨[], [demoProperty], [], [], 10⟩

/-- Account with `messageLimit = 0` (and nothing used yet). -/
def demoUserLimit0 : User := ⟨1, 0, 0⟩

/-- Store whose account has `messageLimit = 0`. -/
def demoStoreLimit0 : Store := ⟨[demoUserLimit0], [demoProperty], [], [], 10⟩

/-- **C5 counterexample** — with the owning account row missing, the run
does not send the fixed notification and does not terminate cleanly: the
unchecked `user.messageCount` access throws, nothing is dispatched
(`sent = []`), contradicting the claimed fixed notification reply. -/
theorem c5_counterexample_missing_account_throws :
    processIncomingMessage demoEnv demoStoreNoUser demoMsg =
      ⟨.thrown "TypeError: Cannot read properties of null", demoStoreNoUser, []⟩ ∧
    (processIncomingMessage demoEnv demoStoreNoUser demoMsg).sent = [] := by
  refine ⟨?_, ?_⟩ <;> decide

/-- **C5 amended** — a `messageLimit` of 0 is a hard rejection with the
fixed notification and no store writes; a missing account record instead
makes the run throw (TypeError on the null lookup), with no notification
sent and no store writes, rather than replying to the guest. -/
theorem c5_limit_zero_rejects_missing_account_throws
    (env : Env) (st : Store) (m : IncomingMessage) (p : Property) (u : User)
    (hp : findFirstProperty st (replaceFirst m.To "whatsapp:" "") = some p)
    (htr : ∀ a b c, env.transport a b c = true) :
    (findUserUnique st p.userId = some u → u.messageLimit = 0 →
      processIncomingMessage env st m =
        ⟨.returned ⟨false, some "Message limit reached", none, none, none⟩, st,
         [⟨"whatsapp:" ++ env.twilioPhoneNumber,
           formatWhatsApp (replaceFirst m.From "whatsapp:" ""), limitNotice⟩]⟩) ∧
    (findUserUnique st p.userId = none →
      processIncomingMessage env st m =
        ⟨.thrown "TypeError: Cannot read properties of null", st, []⟩) := by
  constructor
  · intro hu hlim
    exact processIncomingMessage_rejected env st m p u hp hu (hlim ▸ Nat.zero_le _) htr
  · intro hu
    exact processIncomingMessage_noUser env st m p hp hu

/-- **C5 witness** — both amended branches at concrete inputs: the
limit-0 account is rejected with the notice; the missing account throws. -/
theorem c5_limit_zero_rejects_missing_account_throws_witness :
    (processIncomingMessage demoEnv demoStoreLimit0 demoMsg =
      ⟨.returned ⟨false, some "Message limit reached", none, none, none⟩, demoStoreLimit0,
       [⟨"whatsapp:" ++ demoEnv.twilioPhoneNumber,
         formatWhatsApp (replaceFirst demoMsg.From "whatsapp:" ""), limitNotice⟩]⟩) ∧
    (processIncomingMessage demoEnv demoStoreNoUser demoMsg =
      ⟨.thrown "TypeError: Cannot read properties of null", demoStoreNoUser, []⟩) :=
  ⟨(c5_limit_zero_rejects_missing_account_throws demoEnv demoStoreLimit0 demoMsg demoProperty
      demoUserLimit0 (by decide) (fun _ _ _ => rfl)).1 (by decide) (by decide),
   (c5_limit_zero_rejects_missing_account_throws demoEnv demoStoreNoUser demoMsg demoProperty
      demoUserLimit0 (by decide) (fun _ _ _ => rfl)).2 (by decide)⟩

/-- If the completion provider always fails, `AIAssistant.processMessage`
returns the fixed fallback reply (its catch block swallows the error). -/
theorem processMessage_fallback_of_completeFail
    (env : Env) (st : Store) (pid cid : Nat) (msg e : String)
    (hc : ∀ a b, env.complete a b = .error e) :
    processMessage env st pid cid msg = fallbackReply := by
  unfold processMessage processMessageCore
  cases hfp : findPropertyUnique st pid with
  | none => rfl
  | some property =>
    simp only [hfp]
    cases hss : searchSimilar env.emb env.rpc msg pid 3 (3 / 5 : ℚ) with
    | error e2 => simp [hss]
    | ok ri => simp [hss, hc]

/-- If the embedding provider always fails, `AIAssistant.processMessage`
returns the fixed fallback reply: retrieval throws and the catch block
swallows it before any completion call. -/
theorem processMessage_fallback_of_embFail
    (env : Env) (st : Store) (pid cid : Nat) (msg e : String)
    (hemb : ∀ t, env.emb t = .error e) :
    processMessage env st pid cid msg = fallbackReply := by
  unfold processMessage processMessageCore
  cases hfp : findPropertyUnique st pid with
  | none => rfl
  | some property =>
    have hss : searchSimilar env.emb env.rpc msg pid 3 (3 / 5 : ℚ) =
        .error "Failed to generate embedding" := by
      unfold searchSimilar generateEmbedding
      simp [hemb]
    simp only [hfp, hss]

/-- **C3** — For every admitted inbound message with a failing completion
provider, the pipeline does not abort: the fixed fallback reply is
persisted as the from-host message, the second quota unit is consumed, and
the fallback is dispatched to the guest — a successful completion of the
exchange, not an unrecovered generation failure. -/
theorem c3_completion_failure_degrades_to_fallback
    (env : Env) (st : Store) (m : IncomingMessage) (p : Property) (u : User) (e : String)
    (hp : findFirstProperty st (replaceFirst m.To "whatsapp:" "") = some p)
    (hu : findUserUnique st p.userId = some u)
    (hadm : u.messageCount < u.messageLimit)
    (htr : ∀ a b c, env.transport a b c = true)
    (hcfail : ∀ a b, env.complete a b = .error e) :
    ∃ cid i1 i2,
      (processIncomingMessage env st m).outcome =
        .returned ⟨true, none, some p.id, some cid, some i1⟩ ∧
      (processIncomingMessage env st m).store.messages =
        st.messages ++ [⟨i1, cid, m.Body, true⟩, ⟨i2, cid, fallbackReply, false⟩] ∧
      userCount (processIncomingMessage env st m).store p.userId = u.messageCount + 2 ∧
      (processIncomingMessage env st m).sent =
        [⟨"whatsapp:" ++ env.twilioPhoneNumber,
          formatWhatsApp (replaceFirst m.From "whatsapp:" ""), fallbackReply⟩] := by
  rw [processIncomingMessage_admitted env st m p u hp hu hadm htr]
  cases hc : findFirstConversation st p.id (replaceFirst m.From "whatsapp:" "") with
  | some c =>
    simp only [hc]
    rw [processMessage_fallback_of_completeFail env _ p.id _ m.Body e hcfail]
    refine ⟨c.id, st.nextId, st.nextId + 1, rfl, ?_, ?_, rfl⟩
    · simp [incrementUserCount, createMessage, createConversation, List.append_assoc]
    · have h3 : findUserUnique (incrementUserCount
          (createMessage st c.id m.Body true).2 p.userId) p.userId =
          some { u with messageCount := u.messageCount + 1 } :=
        findUser_inc_of_found _ _ u hu
      exact userCount_inc_of_found _ _ _ h3
  | none =>
    simp only [hc]
    rw [processMessage_fallback_of_completeFail env _ p.id _ m.Body e hcfail]
    refine ⟨st.nextId, st.nextId + 1, st.nextId + 2, rfl, ?_, ?_, rfl⟩
    · simp [incrementUserCount, createMessage, createConversation, List.append_assoc]
    · have h3 : findUserUnique (incrementUserCount
          (createMessage (createConversation st p.id (replaceFirst m.From "whatsapp:" "")
            (profileNameOrGuest m.ProfileName) env.now).2 st.nextId m.Body true).2
          p.userId) p.userId =
          some { u with messageCount := u.messageCount + 1 } :=
        findUser_inc_of_found _ _ u hu
      exact userCount_inc_of_found _ _ _ h3

/-- Environment whose completion provider always fails. -/
def demoEnvNoComplete : Env := { demoEnv with complete := fun _ _ => .error "rate limited" }

/-- **C3 witness** — Scenario C at a concrete store: with the completion
provider down, the admitted message still ends in a persisted, dispatched
fallback apology and two consumed quota units. -/
theorem c3_completion_failure_degrades_to_fallback_witness :
    ∃ cid i1 i2,
      (processIncomingMessage demoEnvNoComplete demoStore99 demoMsg).outcome =
        .returned ⟨true, none, some demoProperty.id, some cid, some i1⟩ ∧
      (processIncomingMessage demoEnvNoComplete demoStore99 demoMsg).store.messages =
        demoStore99.messages ++
          [⟨i1, cid, demoMsg.Body, true⟩, ⟨i2, cid, fallbackReply, false⟩] ∧
      userCount (processIncomingMessage demoEnvNoComplete demoStore99 demoMsg).store
        demoProperty.userId = demoUser99.messageCount + 2 ∧
      (processIncomingMessage demoEnvNoComplete demoStore99 demoMsg).sent =
        [⟨"whatsapp:" ++ demoEnvNoComplete.twilioPhoneNumber,
          formatWhatsApp (replaceFirst demoMsg.From "whatsapp:" ""), fallbackReply⟩] :=
  c3_completion_failure_degrades_to_fallback demoEnvNoComplete demoStore99 demoMsg
    demoProperty demoUser99 "rate limited" (by decide) (by decide) (by decide)
    (fun _ _ _ => rfl) (fun _ _ => rfl)

/-- Admitted pipeline run whose generated reply is the fallback text
(whatever made `processMessage` degrade): the fallback is persisted,
counted and dispatched. -/
theorem processIncomingMessage_admitted_fallback
    (env : Env) (st : Store) (m : IncomingMessage) (p : Property) (u : User)
    (hp : findFirstProperty st (replaceFirst m.To "whatsapp:" "") = some p)
    (hu : findUserUnique st p.userId = some u)
    (hadm : u.messageCount < u.messageLimit)
    (htr : ∀ a b c, env.transport a b c = true)
    (hai : ∀ st2 cid, processMessage env st2 p.id cid m.Body = fallbackReply) :
    ∃ cid i1 i2,
      (processIncomingMessage env st m).outcome =
        .returned ⟨true, none, some p.id, some cid, some i1⟩ ∧
      (processIncomingMessage env st m).store.messages =
        st.messages ++ [⟨i1, cid, m.Body, true⟩, ⟨i2, cid, fallbackReply, false⟩] ∧
      userCount (processIncomingMessage env st m).store p.userId = u.messageCount + 2 ∧
      (processIncomingMessage env st m).sent =
        [⟨"whatsapp:" ++ env.twilioPhoneNumber,
          formatWhatsApp (replaceFirst m.From "whatsapp:" ""), fallbackReply⟩] := by
  rw [processIncomingMessage_admitted env st m p u hp hu hadm htr]
  cases hc : findFirstConversation st p.id (replaceFirst m.From "whatsapp:" "") with
  | some c =>
    simp only [hc]
    rw [hai _ _]
    refine ⟨c.id, st.nextId, st.nextId + 1, rfl, ?_, ?_, rfl⟩
    · simp [incrementUserCount, createMessage, createConversation, List.append_assoc]
    · have h3 : findUserUnique (incrementUserCount
          (createMessage st c.id m.Body true).2 p.userId) p.userId =
          some { u with messageCount := u.messageCount + 1 } :=
        findUser_inc_of_found _ _ u hu
      exact userCount_inc_of_found _ _ _ h3
  | none =>
    simp only [hc]
    rw [hai _ _]
    refine ⟨st.nextId, st.nextId + 1, st.nextId + 2, rfl, ?_, ?_, rfl⟩
    · simp [incrementUserCount, createMessage, createConversation, List.append_assoc]
    · have h3 : findUserUnique (incrementUserCount
          (createMessage (createConversation st p.id (replaceFirst m.From "whatsapp:" "")
            (profileNameOrGuest m.ProfileName) env.now).2 st.nextId m.Body true).2
          p.userId) p.userId =
          some { u with messageCount := u.messageCount + 1 } :=
        findUser_inc_of_found _ _ u hu
      exact userCount_inc_of_found _ _ _ h3

/-- Environment whose embedding provider always fails. -/
def demoEnvNoEmb : Env := { demoEnv with emb := fun _ => .error "ECONNREFUSED" }

/-- **C1 counterexample** — with the embedding provider failing,
`searchSimilar` propagates the failure as an error: it does not return the
empty sequence the claim asserts. -/
theorem c1_counterexample_searchSimilar_propagates :
    searchSimilar demoEnvNoEmb.emb demoEnvNoEmb.rpc "Where is check-in?" 2 3 (3 / 5 : ℚ) =
      .error "Failed to generate embedding" ∧
    searchSimilar demoEnvNoEmb.emb demoEnvNoEmb.rpc "Where is check-in?" 2 3 (3 / 5 : ℚ) ≠
      .ok ([] : List SearchResult) := by
  refine ⟨?_, ?_⟩ <;> decide

/-- If the vector-store RPC always fails, `AIAssistant.processMessage`
returns the fixed fallback reply: whether or not the query embedding
succeeds, `searchSimilar` throws and the catch block swallows it before
any completion call. -/
theorem processMessage_fallback_of_rpcFail
    (env : Env) (st : Store) (pid cid : Nat) (msg e : String)
    (hrpc : ∀ (v : List Int) (thr : ℚ) (k p2 : Nat), env.rpc v thr k p2 = .error e) :
    processMessage env st pid cid msg = fallbackReply := by
  unfold processMessage processMessageCore
  cases hfp : findPropertyUnique st pid with
  | none => rfl
  | some property =>
    have hex : ∃ e2, searchSimilar env.emb env.rpc msg pid 3 (3 / 5 : ℚ) = .error e2 := by
      unfold searchSimilar generateEmbedding
      cases hemb : env.emb msg with
      | error e3 => exact ⟨"Failed to generate embedding", by simp [hemb]⟩
      | ok v => exact ⟨"Error in similarity search: " ++ e, by simp [hemb, hrpc]⟩
    obtain ⟨e2, hss⟩ := hex
    simp only [hfp, hss]

/-- Environment whose vector-store RPC always fails. -/
def demoEnvNoRpc : Env := { demoEnv with rpc := fun _ _ _ _ => .error "rpc down" }

/-- **C1 amended** — if the embedding provider or the vector-store RPC
fails, `searchSimilar` propagates the corresponding error; in either
failure mode `processMessage` catches it and substitutes the fixed
fallback reply without reaching the completion call, and the pipeline
still persists, counts and dispatches that (ungrounded) fallback response
for the admitted inbound message. -/
theorem c1_retrieval_failure_propagates_and_pipeline_degrades
    (env : Env) (st : Store) (m : IncomingMessage) (p : Property) (u : User)
    (hp : findFirstProperty st (replaceFirst m.To "whatsapp:" "") = some p)
    (hu : findUserUnique st p.userId = some u)
    (htr : ∀ a b c, env.transport a b c = true) :
    (∀ (e q : String) (pid k : Nat) (thr : ℚ), env.emb q = .error e →
      searchSimilar env.emb env.rpc q pid k thr = .error "Failed to generate embedding") ∧
    (∀ (e q : String) (v : List Int) (pid k : Nat) (thr : ℚ),
      env.emb q = .ok v → env.rpc v thr k pid = .error e →
      searchSimilar env.emb env.rpc q pid k thr =
        .error ("Error in similarity search: " ++ e)) ∧
    (∀ e : String, (∀ t, env.emb t = .error e) →
      (∀ (st2 : Store) (pid cid : Nat) (msg2 : String),
        processMessage env st2 pid cid msg2 = fallbackReply) ∧
      (u.messageCount < u.messageLimit →
        ∃ cid i1 i2,
          (processIncomingMessage env st m).outcome =
            .returned ⟨true, none, some p.id, some cid, some i1⟩ ∧
          (processIncomingMessage env st m).store.messages =
            st.messages ++ [⟨i1, cid, m.Body, true⟩, ⟨i2, cid, fallbackReply, false⟩] ∧
          userCount (processIncomingMessage env st m).store p.userId = u.messageCount + 2 ∧
          (processIncomingMessage env st m).sent =
            [⟨"whatsapp:" ++ env.twilioPhoneNumber,
              formatWhatsApp (replaceFirst m.From "whatsapp:" ""), fallbackReply⟩])) ∧
    (∀ e : String, (∀ (v : List Int) (thr : ℚ) (k p2 : Nat), env.rpc v thr k p2 = .error e) →
      (∀ (st2 : Store) (pid cid : Nat) (msg2 : String),
        processMessage env st2 pid cid msg2 = fallbackReply) ∧
      (u.messageCount < u.messageLimit →
        ∃ cid i1 i2,
          (processIncomingMessage env st m).outcome =
            .returned ⟨true, none, some p.id, some cid, some i1⟩ ∧
          (processIncomingMessage env st m).store.messages =
            st.messages ++ [⟨i1, cid, m.Body, true⟩, ⟨i2, cid, fallbackReply, false⟩] ∧
          userCount (processIncomingMessage env st m).store p.userId = u.messageCount + 2 ∧
          (processIncomingMessage env st m).sent =
            [⟨"whatsapp:" ++ env.twilioPhoneNumber,
              formatWhatsApp (replaceFirst m.From "whatsapp:" ""), fallbackReply⟩])) := by
  refine ⟨?_, ?_, ?_, ?_⟩
  · intro e q pid k thr hq
    unfold searchSimilar generateEmbedding
    simp [hq]
  · intro e q v pid k thr hq hr
    unfold searchSimilar generateEmbedding
    simp [hq, hr]
  · intro e hembf
    refine ⟨fun st2 pid cid msg2 =>
      processMessage_fallback_of_embFail env st2 pid cid msg2 e hembf, fun hadm => ?_⟩
    exact processIncomingMessage_admitted_fallback env st m p u hp hu hadm htr
      (fun st2 cid => processMessage_fallback_of_embFail env st2 p.id cid m.Body e hembf)
  · intro e hrpcf
    refine ⟨fun st2 pid cid msg2 =>
      processMessage_fallback_of_rpcFail env st2 pid cid msg2 e hrpcf, fun hadm => ?_⟩
    exact processIncomingMessage_admitted_fallback env st m p u hp hu hadm htr
      (fun st2 cid => processMessage_fallback_of_rpcFail env st2 p.id cid m.Body e hrpcf)

/-- **C1 witness** — the amended statement at concrete inputs for both
failure modes: the failing embedding provider and the failing vector-store
RPC each propagate out of `searchSimilar`, degrade `processMessage` to the
fixed fallback, and leave the pipeline completing with the fallback
persisted and dispatched. -/
theorem c1_retrieval_failure_propagates_and_pipeline_degrades_witness :
    (searchSimilar demoEnvNoEmb.emb demoEnvNoEmb.rpc "Where is the pool?" 2 3 (3 / 5 : ℚ) =
      .error "Failed to generate embedding") ∧
    (∀ (st2 : Store) (pid cid : Nat) (msg2 : String),
      processMessage demoEnvNoEmb st2 pid cid msg2 = fallbackReply) ∧
    (∃ cid i1 i2,
      (processIncomingMessage demoEnvNoEmb demoStore99 demoMsg).outcome =
        .returned ⟨true, none, some demoProperty.id, some cid, some i1⟩ ∧
      (processIncomingMessage demoEnvNoEmb demoStore99 demoMsg).store.messages =
        demoStore99.messages ++
          [⟨i1, cid, demoMsg.Body, true⟩, ⟨i2, cid, fallbackReply, false⟩] ∧
      userCount (processIncomingMessage demoEnvNoEmb demoStore99 demoMsg).store
        demoProperty.userId = demoUser99.messageCount + 2 ∧
      (processIncomingMessage demoEnvNoEmb demoStore99 demoMsg).sent =
        [⟨"whatsapp:" ++ demoEnvNoEmb.twilioPhoneNumber,
          formatWhatsApp (replaceFirst demoMsg.From "whatsapp:" ""), fallbackReply⟩]) ∧
    (searchSimilar demoEnvNoRpc.emb demoEnvNoRpc.rpc "Where is the pool?" 2 3 (3 / 5 : ℚ) =
      .error ("Error in similarity search: " ++ "rpc down")) ∧
    (∀ (st2 : Store) (pid cid : Nat) (msg2 : String),
      processMessage demoEnvNoRpc st2 pid cid msg2 = fallbackReply) ∧
    (∃ cid i1 i2,
      (processIncomingMessage demoEnvNoRpc demoStore99 demoMsg).outcome =
        .returned ⟨true, none, some demoProperty.id, some cid, some i1⟩ ∧
      (processIncomingMessage demoEnvNoRpc demoStore99 demoMsg).store.messages =
        demoStore99.messages ++
          [⟨i1, cid, demoMsg.Body, true⟩, ⟨i2, cid, fallbackReply, false⟩] ∧
      userCount (processIncomingMessage demoEnvNoRpc demoStore99 demoMsg).store
        demoProperty.userId = demoUser99.messageCount + 2 ∧
      (processIncomingMessage demoEnvNoRpc demoStore99 demoMsg).sent =
        [⟨"whatsapp:" ++ demoEnvNoRpc.twilioPhoneNumber,
          formatWhatsApp (replaceFirst demoMsg.From "whatsapp:" ""), fallbackReply⟩]) := by
  have hA := c1_retrieval_failure_propagates_and_pipeline_degrades demoEnvNoEmb demoStore99
    demoMsg demoProperty demoUser99 (by decide) (by decide) (fun _ _ _ => rfl)
  have hB := c1_retrieval_failure_propagates_and_pipeline_degrades demoEnvNoRpc demoStore99
    demoMsg demoProperty demoUser99 (by decide) (by decide) (fun _ _ _ => rfl)
  exact ⟨hA.1 "ECONNREFUSED" "Where is the pool?" 2 3 (3 / 5 : ℚ) rfl,
    (hA.2.2.1 "ECONNREFUSED" (fun _ => rfl)).1,
    (hA.2.2.1 "ECONNREFUSED" (fun _ => rfl)).2 (by decide),
    hB.2.1 "rpc down" "Where is the pool?" [1, 2] 2 3 (3 / 5 : ℚ) rfl rfl,
    (hB.2.2.2 "rpc down" (fun _ _ _ _ => rfl)).1,
    (hB.2.2.2 "rpc down" (fun _ _ _ _ => rfl)).2 (by decide)⟩

/-- A detail line is empty exactly when its field is JS-falsy (absent or
the empty string) — in particular a label is never rendered with no value. -/
theorem detailLine_eq_empty_iff (label : String) (v : Option String) :
    detailLine label v = "" ↔ jsTruthyStr v = false := by
  cases v with
  | none => simp [detailLine, jsTruthyStr]
  | some s =>
    cases hs : (s == "") with
    | true => simp [detailLine, jsTruthyStr, hs]
    | false =>
      have hne : ("- " ++ label ++ ": " ++ s) ≠ "" := by
        intro h
        have hd := congrArg String.data h
        simp only [String.data_append] at hd
        have : ('-' :: (' ' :: [])) ++ label.data ++ (':' :: (' ' :: [])) ++ s.data =
            ([] : List Char) := hd
        simp at this
      simp [detailLine, jsTruthyStr, hs, hne]

/-- A truthy field renders as its labeled line. -/
theorem detailLine_of_truthy (label : String) (v : Option String)
    (h : jsTruthyStr v = true) :
    detailLine label v = "- " ++ label ++ ": " ++ v.getD "" := by
  cases v with
  | none => simp [jsTruthyStr] at h
  | some s =>
    cases hs : (s == "") with
    | true => simp [jsTruthyStr, hs] at h
    | false => simp [detailLine, hs]

/-- The four conditionally rendered detail lines all occur verbatim inside
the assembled system prompt. -/
theorem detailLine_infix_prompt (p : Property) (d : PropertyDetails) (info : String)
    (hd : p.propertyDetails = some d) :
    (detailLine "Check-in time" d.checkInTime).data <:+: (createSystemPrompt p info).data ∧
    (detailLine "Check-out time" d.checkOutTime).data <:+: (createSystemPrompt p info).data ∧
    (detailLine "WiFi password" d.wifiPassword).data <:+: (createSystemPrompt p info).data ∧
    (detailLine "Location" d.location).data <:+: (createSystemPrompt p info).data := by
  unfold createSystemPrompt
  rw [hd]
  simp only [Option.getD_some, String.data_append]
  refine ⟨?_, ?_, ?_, ?_⟩
  · exact ⟨(promptHead p.name).data ++ info.data ++ "\n\nAdditional property details:\n".data,
      "\n".data ++ (detailLine "Check-out time" d.checkOutTime).data ++ "\n".data ++
        (detailLine "WiFi password" d.wifiPassword).data ++ "\n".data ++
        (detailLine "Location" d.location).data ++ promptTail.data,
      by simp [List.append_assoc]⟩
  · exact ⟨(promptHead p.name).data ++ info.data ++ "\n\nAdditional property details:\n".data ++
        (detailLine "Check-in time" d.checkInTime).data ++ "\n".data,
      "\n".data ++ (detailLine "WiFi password" d.wifiPassword).data ++ "\n".data ++
        (detailLine "Location" d.location).data ++ promptTail.data,
      by simp [List.append_assoc]⟩
  · exact ⟨(promptHead p.name).data ++ info.data ++ "\n\nAdditional property details:\n".data ++
        (detailLine "Check-in time" d.checkInTime).data ++ "\n".data ++
        (detailLine "Check-out time" d.checkOutTime).data ++ "\n".data,
      "\n".data ++ (detailLine "Location" d.location).data ++ promptTail.data,
      by simp [List.append_assoc]⟩
  · exact ⟨(promptHead p.name).data ++ info.data ++ "\n\nAdditional property details:\n".data ++
        (detailLine "Check-in time" d.checkInTime).data ++ "\n".data ++
        (detailLine "Check-out time" d.checkOutTime).data ++ "\n".data ++
        (detailLine "WiFi password" d.wifiPassword).data ++ "\n".data,
      promptTail.data,
      by simp [List.append_assoc]⟩

/-- Details whose only non-empty optional field is `houseRules`. -/
def demoDetailsHouseRules : PropertyDetails := { houseRules := some "No smoking" }

/-- Details with every optional field absent. -/
def demoDetailsEmptyAll : PropertyDetails := {}

/-- The demo property carrying the `houseRules`-only details. -/
def demoPropHouseRules : Property := ⟨2, 1, "+15550001", "Casa Azul", some demoDetailsHouseRules⟩

/-- The demo property carrying fully empty details. -/
def demoPropEmptyDetails : Property := ⟨2, 1, "+15550001", "Casa Azul", some demoDetailsEmptyAll⟩

set_option maxRecDepth 10000 in
/-- **C6 counterexample** — `houseRules` is an optional property-detail
field that is present and non-empty, yet the system prompt is identical to
the all-empty-details prompt and the value never occurs in it: the prompt
does not render a labeled line for every non-empty optional field. -/
theorem c6_counterexample_houseRules_never_rendered :
    jsTruthyStr demoDetailsHouseRules.houseRules = true ∧
    createSystemPrompt demoPropHouseRules "pool info" =
      createSystemPrompt demoPropEmptyDetails "pool info" ∧
    occursIn "No smoking" (createSystemPrompt demoPropHouseRules "pool info") = false := by
  refine ⟨rfl, rfl, by decide⟩

/-- **C6 amended** — for each of the four optional detail fields the
prompt actually renders (check-in time, check-out time, WiFi password,
location): its line occurs in the system prompt, the line is empty iff the
field is absent or empty (so a label is never rendered with no value), and
a non-empty field renders as its labeled value. The remaining optional
schema fields are never rendered. -/
theorem c6_rendered_fields_iff_nonempty
    (p : Property) (d : PropertyDetails) (info : String)
    (hd : p.propertyDetails = some d) :
    ((detailLine "Check-in time" d.checkInTime).data <:+: (createSystemPrompt p info).data ∧
     (detailLine "Check-in time" d.checkInTime = "" ↔ jsTruthyStr d.checkInTime = false) ∧
     (jsTruthyStr d.checkInTime = true →
       detailLine "Check-in time" d.checkInTime =
         "- " ++ "Check-in time" ++ ": " ++ d.checkInTime.getD "")) ∧
    ((detailLine "Check-out time" d.checkOutTime).data <:+: (createSystemPrompt p info).data ∧
     (detailLine "Check-out time" d.checkOutTime = "" ↔ jsTruthyStr d.checkOutTime = false) ∧
     (jsTruthyStr d.checkOutTime = true →
       detailLine "Check-out time" d.checkOutTime =
         "- " ++ "Check-out time" ++ ": " ++ d.checkOutTime.getD "")) ∧
    ((detailLine "WiFi password" d.wifiPassword).data <:+: (createSystemPrompt p info).data ∧
     (detailLine "WiFi password" d.wifiPassword = "" ↔ jsTruthyStr d.wifiPassword = false) ∧
     (jsTruthyStr d.wifiPassword = true →
       detailLine "WiFi password" d.wifiPassword =
         "- " ++ "WiFi password" ++ ": " ++ d.wifiPassword.getD "")) ∧
    ((detailLine "Location" d.location).data <:+: (createSystemPrompt p info).data ∧
     (detailLine "Location" d.location = "" ↔ jsTruthyStr d.location = false) ∧
     (jsTruthyStr d.location = true →
       detailLine "Location" d.location =
         "- " ++ "Location" ++ ": " ++ d.location.getD "")) ∧
    (∀ (hr na ec : Option String) (fq : Option (List (String × String)))
        (cn : Option String),
      createSystemPrompt { p with propertyDetails := some { d with houseRules := hr, nearbyAttractions := na, emergencyContacts := ec, faqs := fq, customNotes := cn } } info =
      createSystemPrompt p info) := by
  obtain ⟨h1, h2, h3, h4⟩ := detailLine_infix_prompt p d info hd
  refine ⟨⟨h1, detailLine_eq_empty_iff _ _, detailLine_of_truthy _ _⟩,
    ⟨h2, detailLine_eq_empty_iff _ _, detailLine_of_truthy _ _⟩,
    ⟨h3, detailLine_eq_empty_iff _ _, detailLine_of_truthy _ _⟩,
    ⟨h4, detailLine_eq_empty_iff _ _, detailLine_of_truthy _ _⟩, ?_⟩
  intro hr na ec fq cn
  unfold createSystemPrompt
  rw [hd]
  rfl

/-- Details mixing a non-empty, an explicitly empty and absent fields. -/
def demoDetailsMixed : PropertyDetails :=
  { checkInTime := some "3 PM", checkOutTime := some "", location := some "Lisbon" }

/-- The demo property carrying the mixed details. -/
def demoPropMixed : Property := ⟨2, 1, "+15550001", "Casa Azul", some demoDetailsMixed⟩

/-- **C6 witness** — the amended statement at a concrete property with a
non-empty check-in time, an empty check-out time, no WiFi password and a
non-empty location. -/
theorem c6_rendered_fields_iff_nonempty_witness :
    ((detailLine "Check-in time" demoDetailsMixed.checkInTime).data <:+:
        (createSystemPrompt demoPropMixed "info").data ∧
     (detailLine "Check-in time" demoDetailsMixed.checkInTime = "" ↔
        jsTruthyStr demoDetailsMixed.checkInTime = false) ∧
     (jsTruthyStr demoDetailsMixed.checkInTime = true →
       detailLine "Check-in time" demoDetailsMixed.checkInTime =
         "- " ++ "Check-in time" ++ ": " ++ demoDetailsMixed.checkInTime.getD "")) ∧
    ((detailLine "Check-out time" demoDetailsMixed.checkOutTime).data <:+:
        (createSystemPrompt demoPropMixed "info").data ∧
     (detailLine "Check-out time" demoDetailsMixed.checkOutTime = "" ↔
        jsTruthyStr demoDetailsMixed.checkOutTime = false) ∧
     (jsTruthyStr demoDetailsMixed.checkOutTime = true →
       detailLine "Check-out time" demoDetailsMixed.checkOutTime =
         "- " ++ "Check-out time" ++ ": " ++ demoDetailsMixed.checkOutTime.getD "")) ∧
    ((detailLine "WiFi password" demoDetailsMixed.wifiPassword).data <:+:
        (createSystemPrompt demoPropMixed "info").data ∧
     (detailLine "WiFi password" demoDetailsMixed.wifiPassword = "" ↔
        jsTruthyStr demoDetailsMixed.wifiPassword = false) ∧
     (jsTruthyStr demoDetailsMixed.wifiPassword = true →
       detailLine "WiFi password" demoDetailsMixed.wifiPassword =
         "- " ++ "WiFi password" ++ ": " ++ demoDetailsMixed.wifiPassword.getD "")) ∧
    ((detailLine "Location" demoDetailsMixed.location).data <:+:
        (createSystemPrompt demoPropMixed "info").data ∧
     (detailLine "Location" demoDetailsMixed.location = "" ↔
        jsTruthyStr demoDetailsMixed.location = false) ∧
     (jsTruthyStr demoDetailsMixed.location = true →
       detailLine "Location" demoDetailsMixed.location =
         "- " ++ "Location" ++ ": " ++ demoDetailsMixed.location.getD "")) ∧
    createSystemPrompt { demoPropMixed with propertyDetails := some { demoDetailsMixed with houseRules := some "No smoking", nearbyAttractions := some "beach", emergencyContacts := some "112", faqs := some [("pool", "open 8-20")], customNotes := some "spare key" } } "info" =
      createSystemPrompt demoPropMixed "info" := by
  have h := c6_rendered_fields_iff_nonempty demoPropMixed demoDetailsMixed "info" rfl
  exact ⟨h.1, h.2.1, h.2.2.1, h.2.2.2.1,
    h.2.2.2.2 (some "No smoking") (some "beach") (some "112")
      (some [("pool", "open 8-20")]) (some "spare key")⟩

/-- An existing conversation between the demo property and the guest. -/
def demoConversation : Conversation := ⟨3, 2, "+15559999", "Alice", 0⟩

/-- Store holding the demo conversation (account at 99 of 100). -/
def demoStoreConv : Store := ⟨[demoUser99], [demoProperty], [demoConversation], [], 10⟩

/-- **C7 counterexample** — the conversation-route manual send
(`POST /:id/messages`) persists the host message and dispatches it to the
guest, yet the owning account's counter is unchanged: this manual
host-authored message consumes zero quota units, not exactly one. -/
theorem c7_counterexample_route_consumes_no_quota :
    (postConversationMessage demoEnv demoStoreConv 1 3 "Hello from host").status = 201 ∧
    (postConversationMessage demoEnv demoStoreConv 1 3 "Hello from host").store.messages =
      [⟨10, 3, "Hello from host", false⟩] ∧
    (postConversationMessage demoEnv demoStoreConv 1 3 "Hello from host").sent =
      [⟨"whatsapp:+15550001", "whatsapp:+15559999", "Hello from host"⟩] ∧
    userCount (postConversationMessage demoEnv demoStoreConv 1 3 "Hello from host").store 1 =
      userCount demoStoreConv 1 := by
  refine ⟨?_, ?_, ?_, ?_⟩ <;> decide

/-- **C7 amended** — a manual host message via
`TwilioService.sendManualMessage` is persisted as from-host, consumes
exactly one quota unit and is dispatched to the guest; a manual host
message via the conversation route (`POST /:id/messages`) is persisted and
dispatched the same way but consumes zero quota units. Both bypass
retrieval, prompt building and generation. -/
theorem c7_manual_message_quota
    (env : Env) (st : Store) (cid : Nat) (content : String)
    (c : Conversation) (p : Property) (u : User)
    (hc : findConversationUnique st cid = some c)
    (hpp : findPropertyUnique st c.propertyId = some p)
    (hu : findUserUnique st p.userId = some u)
    (htr : ∀ a b s, env.transport a b s = true) :
    ((sendManualMessage env st cid content).result = .ok ⟨st.nextId, cid, content, false⟩ ∧
     (sendManualMessage env st cid content).store.messages =
       st.messages ++ [⟨st.nextId, cid, content, false⟩] ∧
     userCount (sendManualMessage env st cid content).store p.userId = u.messageCount + 1 ∧
     (sendManualMessage env st cid content).sent =
       [⟨"whatsapp:" ++ env.twilioPhoneNumber, formatWhatsApp c.guestPhoneNumber, content⟩]) ∧
    (∀ uid, p.userId = uid → (jsTrim content == "") = false →
      (postConversationMessage env st uid cid content).status = 201 ∧
      (postConversationMessage env st uid cid content).store.messages =
        st.messages ++ [⟨st.nextId, cid, content, false⟩] ∧
      (postConversationMessage env st uid cid content).store.users = st.users ∧
      (postConversationMessage env st uid cid content).sent =
        [⟨formatWhatsApp p.phoneNumber, formatWhatsApp c.guestPhoneNumber, content⟩]) := by
  constructor
  · have h1 : sendManualMessage env st cid content =
        ⟨.ok ⟨st.nextId, cid, content, false⟩,
         incrementUserCount (createMessage st cid content false).2 p.userId,
         [⟨"whatsapp:" ++ env.twilioPhoneNumber, formatWhatsApp c.guestPhoneNumber, content⟩]⟩ := by
      unfold sendManualMessage sendWhatsAppMessage
      simp only [hc, hpp, htr, if_true]
      rfl
    rw [h1]
    refine ⟨rfl, ?_, ?_, rfl⟩
    · simp [createMessage, incrementUserCount]
    · have h3 : findUserUnique (createMessage st cid content false).2 p.userId = some u := hu
      exact userCount_inc_of_found _ _ _ h3
  · intro uid huid hne
    have h2 : postConversationMessage env st uid cid content =
        ⟨201, touchConversation (createMessage st cid content false).2 cid env.now,
         [⟨formatWhatsApp p.phoneNumber, formatWhatsApp c.guestPhoneNumber, content⟩]⟩ := by
      unfold postConversationMessage sendMessage
      simp only [hne, Bool.false_eq_true, if_false, hc, hpp, huid, beq_self_eq_true,
        if_true, htr]
    rw [h2]
    refine ⟨rfl, ?_, rfl, rfl⟩
    simp [createMessage, touchConversation]

/-- **C7 witness** — both manual paths at the concrete conversation: the
service path ends at count 100 (one unit), the route path leaves the users
table untouched (zero units). -/
theorem c7_manual_message_quota_witness :
    ((sendManualMessage demoEnv demoStoreConv 3 "Checked!").result =
        .ok ⟨demoStoreConv.nextId, 3, "Checked!", false⟩ ∧
     (sendManualMessage demoEnv demoStoreConv 3 "Checked!").store.messages =
       demoStoreConv.messages ++ [⟨demoStoreConv.nextId, 3, "Checked!", false⟩] ∧
     userCount (sendManualMessage demoEnv demoStoreConv 3 "Checked!").store
       demoProperty.userId = demoUser99.messageCount + 1 ∧
     (sendManualMessage demoEnv demoStoreConv 3 "Checked!").sent =
       [⟨"whatsapp:" ++ demoEnv.twilioPhoneNumber,
         formatWhatsApp demoConversation.guestPhoneNumber, "Checked!"⟩]) ∧
    ((postConversationMessage demoEnv demoStoreConv 1 3 "Checked!").status = 201 ∧
     (postConversationMessage demoEnv demoStoreConv 1 3 "Checked!").store.messages =
       demoStoreConv.messages ++ [⟨demoStoreConv.nextId, 3, "Checked!", false⟩] ∧
     (postConversationMessage demoEnv demoStoreConv 1 3 "Checked!").store.users =
       demoStoreConv.users ∧
     (postConversationMessage demoEnv demoStoreConv 1 3 "Checked!").sent =
       [⟨formatWhatsApp demoProperty.phoneNumber,
         formatWhatsApp demoConversation.guestPhoneNumber, "Checked!"⟩]) :=
  ⟨(c7_manual_message_quota demoEnv demoStoreConv 3 "Checked!" demoConversation demoProperty
      demoUser99 (by decide) (by decide) (by decide) (fun _ _ _ => rfl)).1,
   (c7_manual_message_quota demoEnv demoStoreConv 3 "Checked!" demoConversation demoProperty
      demoUser99 (by decide) (by decide) (by decide) (fun _ _ _ => rfl)).2
     1 rfl (by decide)⟩

/-- A pair with no Conversation row has no first match either. -/
theorem findFirstConversation_eq_none_of_count_zero
    (st : Store) (pid : Nat) (g : String)
    (h : countConversations st pid g = 0) :
    findFirstConversation st pid g = none := by
  unfold countConversations at h
  have hfil : st.conversations.filter
      (fun c => c.propertyId == pid && c.guestPhoneNumber == g) = [] :=
    List.length_eq_zero.mp h
  unfold findFirstConversation
  rw [List.find?_eq_none]
  intro c hc hpc
  have hmem : c ∈ st.conversations.filter
      (fun c => c.propertyId == pid && c.guestPhoneNumber == g) :=
    List.mem_filter.mpr ⟨hc, hpc⟩
  simp [hfil] at hmem

/-- **C8 counterexample** — the check-then-act lookup-or-create admits the
interleaving lookup-A, lookup-B, create-A, create-B: starting from zero
Conversation rows for the pair, both concurrent instances observe `none`
and both create, leaving two rows for the same (property, guest-address). -/
theorem c8_counterexample_interleaving_two_rows :
    countConversations demoStore99 2 "+15559999" = 0 ∧
    countConversations (runSchedule demoEnv demoStore99
      ⟨2, "+15559999", "Alice", 0, none⟩ ⟨2, "+15559999", "Bob", 0, none⟩
      [true, false, true, false]) 2 "+15559999" = 2 := by
  refine ⟨?_, ?_⟩ <;> decide

/-- **C8 amended** — the lookup-or-create step is application-level
check-then-act with no store-level uniqueness guard, so uniqueness of the
(property, guest-address) Conversation row holds only when the two
lookup-or-create executions do not interleave: under the serial schedule
the second instance finds the row the first created, and exactly one row
exists. (A concurrent interleaving can create two rows.) -/
theorem c8_serial_lookup_or_create_single_row
    (env : Env) (st : Store) (pid : Nat) (g n1 n2 : String)
    (h0 : countConversations st pid g = 0) :
    countConversations (runSchedule env st ⟨pid, g, n1, 0, none⟩ ⟨pid, g, n2, 0, none⟩
      [true, true, false, false]) pid g = 1 := by
  have hf : findFirstConversation st pid g = none :=
    findFirstConversation_eq_none_of_count_zero st pid g h0
  have hf2 : findFirstConversation
      { users := st.users, properties := st.properties,
        conversations := st.conversations ++ [⟨st.nextId, pid, g, n1, env.now⟩],
        messages := st.messages, nextId := st.nextId + 1 } pid g =
      some ⟨st.nextId, pid, g, n1, env.now⟩ := by
    unfold findFirstConversation
    rw [List.find?_append]
    have hn : st.conversations.find?
        (fun c => c.propertyId == pid && c.guestPhoneNumber == g) = none := hf
    rw [hn]
    simp
  have hfil : st.conversations.filter
      (fun c => c.propertyId == pid && c.guestPhoneNumber == g) = [] := by
    unfold countConversations at h0
    exact List.length_eq_zero.mp h0
  simp [runSchedule, locStep, hf, hf2, countConversations, List.filter_append, hfil,
    createConversation]

/-- **C8 witness** — the serial schedule on the concrete empty-conversation
store ends with exactly one row for the pair. -/
theorem c8_serial_lookup_or_create_single_row_witness :
    countConversations (runSchedule demoEnv demoStore99
      ⟨2, "+15559999", "Alice", 0, none⟩ ⟨2, "+15559999", "Bob", 0, none⟩
      [true, true, false, false]) 2 "+15559999" = 1 :=
  c8_serial_lookup_or_create_single_row demoEnv demoStore99 2 "+15559999" "Alice" "Bob"
    (by decide)

end Ho
